import Mathlib

/-!
Shallow embedding of `src/data_storage.py` (class `DataProcessor`) from the
UniStudentsApp repository, together with proofs about the claims of its
specification.

Modelling conventions:
* A Python `dict` is an association list `List (String × α)` whose keys are
  distinct (dict insertion keeps the position of an existing key and appends
  a fresh key at the end, which `updateAssoc` mirrors).
* A Python `set` is a `List` used up to membership; `set(xs)` is `List.dedup`.
* Scalar cell values are `Value` (string, integer or null/NaN); Python `int`
  is `Int`.
* Timestamps produced by `datetime.now()` are opaque `String` parameters
  threaded into each operation.
* Filesystem reads (`_clean_csv_data` followed by `to_dict('records')`) are
  an oracle `String → Option (List Record)`; `none` is a per-file cleaning
  failure (the `except` branch of the ingestion loop).
-/

deriving instance DecidableEq for Except

/-- A scalar cell value of a record: string, integer, or null/NaN. -/
inductive Value where
  | str (s : String)
  | num (n : Int)
  | null
deriving DecidableEq

/-- One row of data: a mapping from column name to scalar value
(`Dict[str, Any]` in the source). -/
abbrev Record := List (String × Value)

/-- First-match lookup in an association list, modelling `d[k]` / `d.get(k)`. -/
def alookup (k : String) : List (String × α) → Option α
  | [] => none
  | (k', v) :: rest => if k' = k then some v else alookup k rest

/-- Models `d[k] = v` on a Python dict: replace in place if the key exists,
append at the end otherwise. -/
def updateAssoc (l : List (String × α)) (k : String) (v : α) : List (String × α) :=
  match l with
  | [] => [(k, v)]
  | (k', v') :: rest => if k' = k then (k, v) :: rest else (k', v') :: updateAssoc rest k v

/-- The per-dataset statistics entry held in `self.stats[dataset_name]`.
Ingestion writes `total_rows`, `original_rows` and `processed_at`;
filtering adds `filtered_rows`, `removed_rows` and `filtered_at`.
Fields are `Option`s because the dict holds only the keys written so far. -/
structure StatEntry where
  total_rows : Option Int
  original_rows : Option Int
  processed_at : Option String
  filtered_rows : Option Int
  removed_rows : Option Int
  filtered_at : Option String
deriving DecidableEq

/-- The in-memory Application State of a `DataProcessor`:
`self.data`, `self.stats`, `self.processed_files`, `self.excluded_components`. -/
structure State where
  data : List (String × List Record)
  stats : List (String × StatEntry)
  processed_files : List String
  excluded_components : List String
deriving DecidableEq

/-- The JSON object written by `_save_state` to `application_state.json`. -/
structure Snapshot where
  stats : List (String × StatEntry)
  processed_files : List String
  excluded_components : List String
  last_updated : String
  data : List (String × List Record)
deriving DecidableEq

/-- Models `_save_state`: serialize the full current state together with a
`last_updated` timestamp. -/
def saveState (s : State) (t : String) : Snapshot :=
  { stats := s.stats
    processed_files := s.processed_files
    excluded_components := s.excluded_components
    last_updated := t
    data := s.data }

/-- Models `_load_state` on an existing, well-formed snapshot file: read back the
four state components (`set(...)` of the two persisted lists is `dedup`). -/
def loadState (snap : Snapshot) : State :=
  { data := snap.data
    stats := snap.stats
    processed_files := snap.processed_files.dedup
    excluded_components := snap.excluded_components.dedup }

/-- Models `_initialize_new_state`: clear `self.data`, `self.stats` and
`self.processed_files` (the source does not touch `self.excluded_components`)
and immediately persist via `_save_state`. -/
def initializeNewState (s : State) (t : String) : State × Snapshot :=
  let s' : State :=
    { data := []
      stats := []
      processed_files := []
      excluded_components := s.excluded_components }
  (s', saveState s' t)

/-- Models `clear_state`: delegates to `_initialize_new_state`. -/
def clearState (s : State) (t : String) : State × Snapshot :=
  initializeNewState s t

/-- The dictionary returned by `get_state_summary`.  `last_updated` is
`self.stats.get('last_updated', 'Never')`: either the stats-dict entry under
the key `"last_updated"` (a `StatEntry`, were it ever present) or the string
sentinel `'Never'`. -/
structure StateSummary where
  processed_files : Nat
  total_records : Nat
  datasets : List String
  last_updated : StatEntry ⊕ String
deriving DecidableEq

/-- Models `get_state_summary`. -/
def getStateSummary (s : State) : StateSummary :=
  { processed_files := s.processed_files.length
    total_records := (s.data.map (fun kv => kv.2.length)).sum
    datasets := s.data.map Prod.fst
    last_updated :=
      match alookup "last_updated" s.stats with
      | some e => Sum.inl e
      | none => Sum.inr "Never" }

/-- Models `Path(p).stem` for ordinary file names: the final path component without
its last extension (e.g. `"logs/activity_log.csv" ↦ "activity_log"`). -/
def pathStem (p : String) : String :=
  let file := (p.splitOn "/").getLastD p
  let parts := file.splitOn "."
  if parts.length ≤ 1 then file else String.intercalate "." parts.dropLast

/-- Models `path.stem.upper()`: the canonical dataset name derived from a file path. -/
def datasetNameOf (p : String) : String :=
  (pathStem p).toUpper

/-- The statistics entry written by `process_csv_files` for a freshly
ingested dataset of `n` records at time `t`. -/
def ingestEntry (n : Nat) (t : String) : StatEntry :=
  { total_rows := some (n : Int)
    original_rows := some (n : Int)
    processed_at := some t
    filtered_rows := none
    removed_rows := none
    filtered_at := none }

/-- The JSON export artifact written by `_save_json_records`
(`processed_data_<timestamp>.json`). -/
structure ExportArtifact where
  processed_at : String
  file_statistics : List (String × StatEntry)
  processed_files : List String
  excluded_components : List String
  column_mappings : List (String × String)
  data : List (String × List Record)
deriving DecidableEq

/-- Models `_save_json_records`: skipped (`"No data to save"`) when `self.data` is
empty, otherwise writes the current data under a metadata envelope. -/
def saveJsonRecords (s : State) (t : String) : Option ExportArtifact :=
  if s.data.isEmpty then none
  else
    some
      { processed_at := t
        file_statistics := s.stats
        processed_files := s.processed_files
        excluded_components := s.excluded_components
        column_mappings := [("User Full Name *Anonymized", "User_ID")]
        data := s.data }

/-- The loop of `process_csv_files` over its `file_paths`, threading the
state and the `newly_processed` flag.  A path already in
`self.processed_files` is skipped; a path the cleaning oracle rejects is
reported and skipped (`except ... continue`); otherwise the cleaned records
replace the dataset named after the file stem, statistics are rewritten and
the path is registered. -/
def processGo (fs : String → Option (List Record)) (now : String) :
    State → Bool → List String → State × Bool
  | s, newly, [] => (s, newly)
  | s, newly, p :: rest =>
    if p ∈ s.processed_files then processGo fs now s newly rest
    else
      match fs p with
      | none => processGo fs now s newly rest
      | some recs =>
        processGo fs now
          { s with
            stats := updateAssoc s.stats (datasetNameOf p) (ingestEntry recs.length now)
            data := updateAssoc s.data (datasetNameOf p) recs
            processed_files := s.processed_files ++ [p] }
          true rest

/-- The observable outcome of one `process_csv_files` call: the final state,
the `newly_processed` flag, and the snapshot / export artifact written at the
end of the call (when any). -/
structure ProcessResult where
  state : State
  newlyProcessed : Bool
  snapshot : Option Snapshot
  exportArtifact : Option ExportArtifact
deriving DecidableEq

/-- Models `process_csv_files`: run the ingestion loop, then — only if at least one
file was newly processed — write the export artifact (`_save_json_records`)
and the state snapshot (`_save_state`). -/
def processCsvFiles (fs : String → Option (List Record)) (now : String)
    (s : State) (paths : List String) : ProcessResult :=
  let r := processGo fs now s false paths
  { state := r.1
    newlyProcessed := r.2
    snapshot := if r.2 then some (saveState r.1 now) else none
    exportArtifact := if r.2 then saveJsonRecords r.1 now else none }

/-- Models `record.get('Component') not in self.excluded_components`:
a record with no `Component` key yields Python `None`, which is never a
member of a set of component-name strings; a non-string value likewise. -/
def optValueMem : Option Value → List String → Bool
  | none, _ => false
  | some (Value.str s), ex => ex.contains s
  | some _, _ => false

/-- The predicate a record must satisfy to survive
`remove_excluded_components`. -/
def keepRecord (ex : List String) (r : Record) : Bool :=
  ! optValueMem (alookup "Component" r) ex

/-- Models `original_rows` with the source's fallback chain:
`stats[name].get('original_rows', stats[name].get('total_rows', 0))`. -/
def origRowsOf (e : StatEntry) : Int :=
  e.original_rows.getD (e.total_rows.getD 0)

/-- The loop of `remove_excluded_components` over `self.data.items()`:
for each dataset, read its stats entry (a missing entry is the `KeyError`
caught and re-raised by the surrounding `except`), filter the records, and
merge `filtered_rows`, `removed_rows` and `filtered_at` into the entry. -/
def filterGo (ex : List String) (t : String) :
    List (String × List Record) → List (String × StatEntry) →
    Except String (List (String × List Record) × List (String × StatEntry))
  | [], st => Except.ok ([], st)
  | (name, recs) :: rest, st =>
    match alookup name st with
    | none => Except.error ("Error removing excluded components: " ++ name)
    | some e =>
      let filtered := recs.filter (keepRecord ex)
      let e' : StatEntry :=
        { e with
          filtered_rows := some (filtered.length : Int)
          removed_rows := some (origRowsOf e - (filtered.length : Int))
          filtered_at := some t }
      match filterGo ex t rest (updateAssoc st name e') with
      | Except.error msg => Except.error msg
      | Except.ok (d, stF) => Except.ok ((name, filtered) :: d, stF)

/-- Models `remove_excluded_components`: filter every dataset against the exclusion
set, update the statistics, and persist the updated state via `_save_state`. -/
def removeExcludedComponents (s : State) (t : String) :
    Except String (State × Snapshot) :=
  match filterGo s.excluded_components t s.data s.stats with
  | Except.error msg => Except.error msg
  | Except.ok (d, st) =>
    let s' := { s with data := d, stats := st }
    Except.ok (s', saveState s' t)

/-- A pandas `DataFrame`: an ordered list of column labels (duplicates
allowed, as after a column-wise `concat`) and rows of cells aligned with
them positionally. -/
structure DataFrame where
  cols : List String
  rows : List (List Value)
deriving DecidableEq

/-- Models `pd.DataFrame(records)` on a list of dicts: columns in order of first
appearance across the records, cells missing from a record become NaN. -/
def dfFromRecords (records : List Record) : DataFrame :=
  let cols := records.foldl
    (fun acc r => r.foldl
      (fun acc2 kv => if kv.1 ∈ acc2 then acc2 else acc2 ++ [kv.1]) acc) []
  { cols := cols
    rows := records.map (fun r => cols.map (fun c => (alookup c r).getD Value.null)) }

/-- Models `df.reset_index()` on a default `RangeIndex`: a new first column named
`"index"` holding the positional row number. -/
def dfResetIndex (df : DataFrame) : DataFrame :=
  { cols := "index" :: df.cols
    rows := (List.range df.rows.length).zip df.rows |>.map
      (fun ir => Value.num (ir.1 : Int) :: ir.2) }

/-- Models `pd.concat([a, b], axis=1)` on default indexes: juxtapose the columns,
pairing row `i` of `a` with row `i` of `b`; the shorter side is padded with
NaN rows (outer join of the two `RangeIndex`es). -/
def dfConcatCols (a b : DataFrame) : DataFrame :=
  { cols := a.cols ++ b.cols
    rows := (List.range (max a.rows.length b.rows.length)).map
      (fun i =>
        a.rows.getD i (List.replicate a.cols.length Value.null) ++
        b.rows.getD i (List.replicate b.cols.length Value.null)) }

/-- Models `left.merge(right, on=key, how='left')`: for every left row, emit one
output row per right row whose key cell equals the left key cell (NaN keys
never match), or a single NaN-padded row when there is no match; the right
key column is not repeated in the output. -/
def dfMergeLeftOn (left right : DataFrame) (key : String) :
    Except String DataFrame :=
  match left.cols.findIdx? (· = key), right.cols.findIdx? (· = key) with
  | some li, some ri =>
    Except.ok
      { cols := left.cols ++ right.cols.eraseIdx ri
        rows := left.rows.flatMap (fun lrow =>
          let k := lrow.getD li Value.null
          let hits :=
            if k = Value.null then []
            else right.rows.filter (fun rrow => rrow.getD ri Value.null = k)
          if hits.isEmpty then
            [lrow ++ List.replicate (right.cols.length - 1) Value.null]
          else hits.map (fun rrow => lrow ++ rrow.eraseIdx ri)) }
  | _, _ => Except.error ("KeyError: " ++ key)

/-- Models `df.iloc[:, k:]`: drop the first `k` columns positionally. -/
def dfDropFirstCols (df : DataFrame) (k : Nat) : DataFrame :=
  { cols := df.cols.drop k
    rows := df.rows.map (fun r => r.drop k) }

/-- Models `pd.to_datetime(v).strftime('%Y-%m')` for ISO-format date strings
(`"YYYY-MM-DD..." ↦ "YYYY-MM"`). -/
def monthOfValue : Value → Value
  | Value.str s => Value.str (s.take 7)
  | _ => Value.null

/-- Models `merged_df['Month'] = pd.to_datetime(merged_df['Date']).dt.strftime('%Y-%m')`:
append a `Month` column derived from the (first) `Date` column; a missing
`Date` column is the pandas `KeyError`. -/
def dfAddMonth (df : DataFrame) : Except String DataFrame :=
  match df.cols.findIdx? (· = "Date") with
  | none => Except.error "KeyError: Date"
  | some di =>
    Except.ok
      { cols := df.cols ++ ["Month"]
        rows := df.rows.map (fun r => r ++ [monthOfValue (r.getD di Value.null)]) }

/-- The errors `merge_datasets` can surface (all re-raised by its `except`
as `"Merge operation failed: ..."`); `missingDatasets` carries the datasets
named by `f"Missing required datasets: «missing»"`. -/
inductive MergeError where
  | missingDatasets (names : List String)
  | keyError (name : String)
  | wrapped (msg : String)
deriving DecidableEq

/-- Models `merge_datasets`: require `ACTIVITY_LOG` and `USER_LOG` to be present
(error naming the missing ones otherwise), then positionally concatenate the
two reset-index frames column-wise, left-join against `COMPONENT_CODES` on
`Component`, drop the first two columns (`iloc[:, 2:]`), and append the
derived `Month` column. -/
def mergeDatasets (s : State) : Except MergeError DataFrame :=
  let available := s.data.map Prod.fst
  let missing := ["ACTIVITY_LOG", "USER_LOG"].filter (fun n => ! available.contains n)
  if missing.isEmpty then
    match alookup "ACTIVITY_LOG" s.data, alookup "USER_LOG" s.data,
        alookup "COMPONENT_CODES" s.data with
    | some act, some usr, some comp =>
      let concatenated :=
        dfConcatCols (dfResetIndex (dfFromRecords act)) (dfResetIndex (dfFromRecords usr))
      match dfMergeLeftOn concatenated (dfFromRecords comp) "Component" with
      | Except.error e => Except.error (MergeError.wrapped e)
      | Except.ok joined =>
        match dfAddMonth (dfDropFirstCols joined 2) with
        | Except.error e => Except.error (MergeError.wrapped e)
        | Except.ok final => Except.ok final
    | _, _, _ => Except.error (MergeError.keyError "COMPONENT_CODES")
  else Except.error (MergeError.missingDatasets missing)

/-- Models `merge_datasets` as a state transformer: the method body reads
`self.data` but never assigns any attribute, so the post-state is the
input state. -/
def runMergeDatasets (s : State) : Except MergeError DataFrame × State :=
  (mergeDatasets s, s)

/-- One row of the merged table as consumed by `reshape_data`, which reads
exactly the `User_ID`, `Month`, `Component` and `Action` columns.  `Month`
and `Component` cells are the strings produced upstream (strftime output and
CSV component names). -/
structure MergedRow where
  user_id : Value
  month : String
  component : String
  action : Value
deriving DecidableEq

/-- Models `astype(int)` on one cell: integers pass through, integer-literal
strings are parsed, NaN (and anything else) fails. -/
def toIntValue : Value → Option Int
  | Value.num n => some n
  | Value.str s => s.toInt?
  | Value.null => none

/-- The coerced `User_ID` of a row (defined when `toIntValue` succeeds,
which `reshape_data` checks up front). -/
def uidOf (r : MergedRow) : Int :=
  (toIntValue r.user_id).getD 0

/-- Ordering used by `pivot_table` / `sort_values(['User_ID', 'Month'])`:
by user id ascending, ties by month string ascending (lexicographic). -/
def pairLe (a b : Int × String) : Prop :=
  a.1 < b.1 ∨ (a.1 = b.1 ∧ a.2 ≤ b.2)

instance : DecidableRel pairLe := fun a b => by
  unfold pairLe; infer_instance

instance : IsTrans (Int × String) pairLe := by
  constructor
  rintro a b c (h1 | ⟨h1e, h1le⟩) (h2 | ⟨h2e, h2le⟩)
  · exact Or.inl (h1.trans h2)
  · exact Or.inl (h2e ▸ h1)
  · exact Or.inl (h1e ▸ h2)
  · exact Or.inr ⟨h1e.trans h2e, h1le.trans h2le⟩

instance : IsTotal (Int × String) pairLe := by
  constructor
  intro a b
  rcases lt_trichotomy a.1 b.1 with h | h | h
  · exact Or.inl (Or.inl h)
  · rcases le_total a.2 b.2 with h2 | h2
    · exact Or.inl (Or.inr ⟨h, h2⟩)
    · exact Or.inr (Or.inr ⟨h.symm, h2⟩)
  · exact Or.inr (Or.inl h)

/-- One row of the pivot table after `reset_index` and the
`Total_Interactions` column: the pair key, the cell of each component column
(aligned with the table's component list), and the row total. -/
structure PivotRow where
  user_id : Int
  month : String
  counts : List Nat
  total : Nat
deriving DecidableEq

/-- The output of `reshape_data`: the component columns (pandas sorts pivot
columns ascending) and the rows. -/
structure PivotTable where
  comps : List String
  rows : List PivotRow
deriving DecidableEq

/-- Row ordering of `sort_values(['User_ID', 'Month'])`. -/
def rowLe (a b : PivotRow) : Prop :=
  pairLe (a.user_id, a.month) (b.user_id, b.month)

instance : DecidableRel rowLe := fun a b => by
  unfold rowLe; infer_instance

instance : IsTrans PivotRow rowLe := by
  constructor
  intro a b c h1 h2
  exact IsTrans.trans (r := pairLe) _ _ _ h1 h2

instance : IsTotal PivotRow rowLe := by
  constructor
  intro a b
  exact IsTotal.total (r := pairLe) _ _

/-- The pivot cell for `(u, m)` under component column `c`:
`aggfunc='count'` counts the rows of that group whose `Action` cell is
non-null; an absent combination yields the `fill_value` 0. -/
def cellCount (rows : List MergedRow) (u : Int) (m : String) (c : String) : Nat :=
  rows.countP (fun r =>
    uidOf r == u && r.month == m && r.component == c && !(r.action == Value.null))

/-- String ordering used by pandas for the pivot's column labels. -/
def strLe (a b : String) : Prop := a ≤ b

instance : DecidableRel strLe := fun a b => inferInstanceAs (Decidable (a ≤ b))

/-- The index of the pivot table: the distinct observed `(User_ID, Month)`
pairs of the merged table. -/
def pivotPairs (rows : List MergedRow) : List (Int × String) :=
  (rows.map (fun r => (uidOf r, r.month))).dedup

/-- The columns of the pivot table: the distinct observed `Component`
values, sorted ascending as pandas does. -/
def pivotComps (rows : List MergedRow) : List String :=
  List.insertionSort strLe (rows.map (fun r => r.component)).dedup

/-- One pivot row after `reset_index` and the `Total_Interactions` step:
the count cells aligned with `pivotComps`, plus their row-wise sum. -/
def pivotRowOf (rows : List MergedRow) (p : Int × String) : PivotRow :=
  PivotRow.mk p.1 p.2
    ((pivotComps rows).map (fun c => cellCount rows p.1 p.2 c))
    (((pivotComps rows).map (fun c => cellCount rows p.1 p.2 c)).sum)

/-- Models `reshape_data`: coerce `User_ID` to integer (failing the whole call on
any non-coercible value), pivot to one row per observed `(User_ID, Month)`
pair with one count column per observed `Component`, append
`Total_Interactions` as the row-wise sum of the component columns, and sort
rows with `sort_values(['User_ID', 'Month'])`. -/
def reshape_data (rows : List MergedRow) : Except String PivotTable :=
  if rows.all (fun r => (toIntValue r.user_id).isSome) then
    Except.ok
      { comps := pivotComps rows
        rows := List.insertionSort rowLe ((pivotPairs rows).map (pivotRowOf rows)) }
  else Except.error "Reshape operation failed: invalid User_ID"

/-! Concrete states and inputs used by the witnesses and counterexamples. -/

/-- Three cleaned `ACTIVITY_LOG` records (columns `Component`, `Action`). -/
def exRecordsA : List Record :=
  [[("Component", Value.str "Quiz"), ("Action", Value.str "View")],
   [("Component", Value.str "Forum"), ("Action", Value.str "Post")],
   [("Component", Value.str "Quiz"), ("Action", Value.str "Edit")]]

/-- Three cleaned `USER_LOG` records (columns `Date`, `User_ID`). -/
def exRecordsU : List Record :=
  [[("Date", Value.str "2024-01-15"), ("User_ID", Value.num 7)],
   [("Date", Value.str "2024-02-10"), ("User_ID", Value.num 7)],
   [("Date", Value.str "2024-02-11"), ("User_ID", Value.num 9)]]

/-- One `COMPONENT_CODES` record mapping `Quiz` to code 101. -/
def exRecordsC : List Record :=
  [[("Component", Value.str "Quiz"), ("Code", Value.num 101)]]

/-- A state holding only `ACTIVITY_LOG` (so `USER_LOG` is missing). -/
def exStateOneDataset : State :=
  { data := [("ACTIVITY_LOG", exRecordsA)]
    stats := [("ACTIVITY_LOG", ingestEntry 3 "t0")]
    processed_files := ["activity.csv"]
    excluded_components := ["System", "Folder"] }

/-- A state holding all three datasets required by `merge_datasets`. -/
def exStateMerge : State :=
  { data := [("ACTIVITY_LOG", exRecordsA), ("USER_LOG", exRecordsU),
             ("COMPONENT_CODES", exRecordsC)]
    stats := [("ACTIVITY_LOG", ingestEntry 3 "t0"), ("USER_LOG", ingestEntry 3 "t0"),
              ("COMPONENT_CODES", ingestEntry 1 "t0")]
    processed_files := ["activity.csv", "user.csv", "codes.csv"]
    excluded_components := ["System", "Folder"] }

/-- A dataset `D` holding one `System` record and one `Quiz` record. -/
def exStateFilter : State :=
  { data := [("D", [[("Component", Value.str "System")],
                    [("Component", Value.str "Quiz")]])]
    stats := [("D", ingestEntry 2 "t0")]
    processed_files := ["d.csv"]
    excluded_components := ["System", "Folder"] }

/-- The statistics entry of `D` after one filtering run at `"t1"`. -/
def exStatB : StatEntry :=
  { total_rows := some 2
    original_rows := some 2
    processed_at := some "t0"
    filtered_rows := some 1
    removed_rows := some 1
    filtered_at := some "t1" }

/-- The state `exStateFilter` after one `remove_excluded_components` run at `"t1"`. -/
def exStateFilterB : State :=
  { data := [("D", [[("Component", Value.str "Quiz")]])]
    stats := [("D", exStatB)]
    processed_files := ["d.csv"]
    excluded_components := ["System", "Folder"] }

/-- The statistics entry of `D` after a second filtering run at `"t2"`. -/
def exStatC : StatEntry :=
  { total_rows := some 2
    original_rows := some 2
    processed_at := some "t0"
    filtered_rows := some 1
    removed_rows := some 1
    filtered_at := some "t2" }

/-- The state `exStateFilterB` after a second `remove_excluded_components` run at `"t2"`. -/
def exStateFilterC : State :=
  { data := [("D", [[("Component", Value.str "Quiz")]])]
    stats := [("D", exStatC)]
    processed_files := ["d.csv"]
    excluded_components := ["System", "Folder"] }

/-- A dataset `D` with a record that has no `Component` field at all,
next to a `System` record. -/
def exStateNoComp : State :=
  { data := [("D", [[("Action", Value.str "x")],
                    [("Component", Value.str "System")]])]
    stats := [("D", ingestEntry 2 "t0")]
    processed_files := ["d.csv"]
    excluded_components := ["System", "Folder"] }

/-- The state `exStateNoComp` after one `remove_excluded_components` run at `"t1"`. -/
def exStateNoCompB : State :=
  { data := [("D", [[("Action", Value.str "x")]])]
    stats := [("D",
      { total_rows := some 2
        original_rows := some 2
        processed_at := some "t0"
        filtered_rows := some 1
        removed_rows := some 1
        filtered_at := some "t1" })]
    processed_files := ["d.csv"]
    excluded_components := ["System", "Folder"] }

/-- An empty freshly constructed state (default exclusion set). -/
def exStateEmpty : State :=
  { data := []
    stats := []
    processed_files := []
    excluded_components := ["System", "Folder"] }

/-- A cleaning oracle knowing a single CSV file. -/
def exFs : String → Option (List Record) :=
  fun p => if p = "activity.csv" then some exRecordsA else none

/-- Merged rows for the spec's reshape example: user 7 with two `Quiz`
actions and one `Forum` action in month `2024-01`. -/
def exMergedRows : List MergedRow :=
  [{ user_id := Value.num 7, month := "2024-01", component := "Quiz",
     action := Value.str "View" },
   { user_id := Value.num 7, month := "2024-01", component := "Quiz",
     action := Value.str "Edit" },
   { user_id := Value.num 7, month := "2024-01", component := "Forum",
     action := Value.str "Post" }]

/-! Helper lemmas about the dict model. -/

theorem alookup_updateAssoc_self (l : List (String × α)) (k : String) (v : α) :
    alookup k (updateAssoc l k v) = some v := by
  induction l with
  | nil => simp [updateAssoc, alookup]
  | cons hd tl ih =>
    obtain ⟨k', v'⟩ := hd
    by_cases h : k' = k
    · simp [updateAssoc, h, alookup]
    · simp [updateAssoc, h, alookup, ih]

theorem alookup_updateAssoc_ne (l : List (String × α)) (k k' : String) (v : α)
    (h : k' ≠ k) : alookup k' (updateAssoc l k v) = alookup k' l := by
  have h' : ¬ k = k' := fun hh => h hh.symm
  induction l with
  | nil => simp [updateAssoc, alookup, h']
  | cons hd tl ih =>
    obtain ⟨k0, v0⟩ := hd
    by_cases h0 : k0 = k
    · subst h0
      simp [updateAssoc, alookup, h']
    · simp [updateAssoc, h0, alookup, ih]

theorem updateAssoc_ne_nil (l : List (String × α)) (k : String) (v : α) :
    updateAssoc l k v ≠ [] := by
  cases l with
  | nil => simp [updateAssoc]
  | cons hd tl =>
    obtain ⟨k', v'⟩ := hd
    by_cases h : k' = k <;> simp [updateAssoc, h]

theorem alookup_map_value (f : α → β) (l : List (String × α)) (k : String) :
    alookup k (l.map (fun kv => (kv.1, f kv.2))) = (alookup k l).map f := by
  induction l with
  | nil => simp [alookup]
  | cons hd tl ih =>
    obtain ⟨k', v'⟩ := hd
    by_cases h : k' = k <;> simp [alookup, h, ih]

theorem keys_map_value (f : α → β) (l : List (String × α)) :
    (l.map (fun kv => (kv.1, f kv.2))).map Prod.fst = l.map Prod.fst := by
  induction l with
  | nil => rfl
  | cons hd tl ih => simp [ih]

/-! Helper lemmas about the filtering loop. -/

theorem filterGo_ok_data (ex : List String) (t : String) :
    ∀ (data : List (String × List Record)) (st : List (String × StatEntry))
      (d : List (String × List Record)) (stF : List (String × StatEntry)),
    filterGo ex t data st = Except.ok (d, stF) →
    d = data.map (fun kv => (kv.1, kv.2.filter (keepRecord ex))) := by
  intro data
  induction data with
  | nil =>
    intro st d stF h
    simp only [filterGo, Except.ok.injEq, Prod.mk.injEq] at h
    simp [← h.1]
  | cons hd rest ih =>
    intro st d stF h
    obtain ⟨name, recs⟩ := hd
    simp only [filterGo] at h
    split at h
    · simp at h
    · split at h
      · simp at h
      · rename_i d0 st0 hrec
        simp only [Except.ok.injEq, Prod.mk.injEq] at h
        rw [← h.1]
        simp only [List.map_cons]
        exact congrArg _ (ih _ _ _ hrec)

theorem filterGo_ok_stats_notmem (ex : List String) (t : String) :
    ∀ (data : List (String × List Record)) (st : List (String × StatEntry))
      (d : List (String × List Record)) (stF : List (String × StatEntry))
      (name : String),
    filterGo ex t data st = Except.ok (d, stF) →
    name ∉ data.map Prod.fst →
    alookup name stF = alookup name st := by
  intro data
  induction data with
  | nil =>
    intro st d stF name h _
    simp only [filterGo, Except.ok.injEq, Prod.mk.injEq] at h
    rw [← h.2]
  | cons hd rest ih =>
    intro st d stF name h hname
    obtain ⟨n, recs⟩ := hd
    simp only [List.map_cons, List.mem_cons, not_or] at hname
    simp only [filterGo] at h
    split at h
    · simp at h
    · split at h
      · simp at h
      · rename_i d0 st0 hrec
        simp only [Except.ok.injEq, Prod.mk.injEq] at h
        rw [← h.2]
        rw [ih _ _ _ _ hrec hname.2]
        exact alookup_updateAssoc_ne _ _ _ _ hname.1

theorem filterGo_ok_stats_mem (ex : List String) (t : String) :
    ∀ (data : List (String × List Record)) (st : List (String × StatEntry))
      (d : List (String × List Record)) (stF : List (String × StatEntry))
      (name : String) (recs : List Record) (e : StatEntry),
    (data.map Prod.fst).Nodup →
    filterGo ex t data st = Except.ok (d, stF) →
    alookup name data = some recs →
    alookup name st = some e →
    alookup name stF = some
      { e with
        filtered_rows := some (((recs.filter (keepRecord ex)).length : Nat) : Int)
        removed_rows := some (origRowsOf e - ((recs.filter (keepRecord ex)).length : Int))
        filtered_at := some t } := by
  intro data
  induction data with
  | nil =>
    intro st d stF name recs e _ _ hdata
    simp [alookup] at hdata
  | cons hd rest ih =>
    intro st d stF name recs e hnd h hdata hstat
    obtain ⟨n, rs⟩ := hd
    simp only [List.map_cons, List.nodup_cons] at hnd
    simp only [filterGo] at h
    split at h
    · simp at h
    · split at h
      · simp at h
      · rename_i e0 heA hval d0 st0 hrec
        simp only [Except.ok.injEq, Prod.mk.injEq] at h
        by_cases hn : n = name
        · subst hn
          have hrs : rs = recs := by simpa [alookup] using hdata
          subst hrs
          rw [hstat] at heA
          injection heA with heq
          subst heq
          rw [← h.2]
          rw [filterGo_ok_stats_notmem ex t rest _ _ _ n hrec hnd.1]
          exact alookup_updateAssoc_self _ _ _
        · simp only [alookup, if_neg hn] at hdata
          rw [← h.2]
          refine ih _ _ _ name recs e hnd.2 hrec hdata ?_
          rw [alookup_updateAssoc_ne _ _ _ _ (fun hh => hn hh.symm)]
          exact hstat

theorem removeExcluded_ok_parts (s : State) (t : String) (s' : State) (snap : Snapshot)
    (h : removeExcludedComponents s t = Except.ok (s', snap)) :
    filterGo s.excluded_components t s.data s.stats = Except.ok (s'.data, s'.stats) ∧
    s'.processed_files = s.processed_files ∧
    s'.excluded_components = s.excluded_components ∧
    snap = saveState s' t := by
  simp only [removeExcludedComponents] at h
  split at h
  · simp at h
  · rename_i d st hfg
    simp only [Except.ok.injEq, Prod.mk.injEq] at h
    obtain ⟨h1, h2⟩ := h
    subst h2
    subst h1
    exact ⟨hfg, rfl, rfl, rfl⟩

theorem removeExcluded_ok_data (s : State) (t : String) (s' : State) (snap : Snapshot)
    (h : removeExcludedComponents s t = Except.ok (s', snap)) :
    s'.data = s.data.map (fun kv => (kv.1, kv.2.filter (keepRecord s.excluded_components))) :=
  filterGo_ok_data _ _ _ _ _ _ (removeExcluded_ok_parts s t s' snap h).1

theorem removeExcluded_ok_stats (s : State) (t : String) (s' : State) (snap : Snapshot)
    (name : String) (recs : List Record) (e : StatEntry)
    (h : removeExcludedComponents s t = Except.ok (s', snap))
    (hnd : (s.data.map Prod.fst).Nodup)
    (hdata : alookup name s.data = some recs)
    (hstat : alookup name s.stats = some e) :
    alookup name s'.stats = some
      { e with
        filtered_rows :=
          some (((recs.filter (keepRecord s.excluded_components)).length : Nat) : Int)
        removed_rows :=
          some (origRowsOf e -
            ((recs.filter (keepRecord s.excluded_components)).length : Int))
        filtered_at := some t } :=
  filterGo_ok_stats_mem _ _ _ _ _ _ _ _ _ hnd
    (removeExcluded_ok_parts s t s' snap h).1 hdata hstat

theorem removeExcluded_ok_lookup_data (s : State) (t : String) (s' : State)
    (snap : Snapshot) (name : String) (recs : List Record)
    (h : removeExcludedComponents s t = Except.ok (s', snap))
    (hdata : alookup name s.data = some recs) :
    alookup name s'.data = some (recs.filter (keepRecord s.excluded_components)) := by
  rw [removeExcluded_ok_data s t s' snap h, alookup_map_value, hdata]
  rfl

/-! Claim theorems. -/

/-- C2: after any successful run of `remove_excluded_components`, every
dataset of the dataset map whose pre-call statistics record
`original_rows = o` ends up with `filtered_rows + removed_rows = o`, and
`original_rows` itself is left untouched by the filtering call. -/
theorem remove_excluded_components_invariant
    (s : State) (t : String) (s' : State) (snap : Snapshot)
    (name : String) (recs : List Record) (e : StatEntry) (o : Int)
    (hrun : removeExcludedComponents s t = Except.ok (s', snap))
    (hnd : (s.data.map Prod.fst).Nodup)
    (hdata : alookup name s.data = some recs)
    (hstat : alookup name s.stats = some e)
    (horig : e.original_rows = some o) :
    ∃ e', alookup name s'.stats = some e' ∧
      e'.original_rows = some o ∧
      ∃ fr rr, e'.filtered_rows = some fr ∧ e'.removed_rows = some rr ∧
        fr + rr = o := by
  refine ⟨_, removeExcluded_ok_stats s t s' snap name recs e hrun hnd hdata hstat,
    horig, _, _, rfl, rfl, ?_⟩
  have : origRowsOf e = o := by simp [origRowsOf, horig]
  rw [this]
  ring

/-- C2 witness: the invariant holds concretely for dataset `D` of
`exStateFilter` after one filtering run. -/
theorem remove_excluded_components_invariant_witness :
    ∃ e', alookup "D" exStateFilterB.stats = some e' ∧
      e'.original_rows = some 2 ∧
      ∃ fr rr, e'.filtered_rows = some fr ∧ e'.removed_rows = some rr ∧
        fr + rr = 2 :=
  remove_excluded_components_invariant exStateFilter "t1" exStateFilterB
    (saveState exStateFilterB "t1") "D"
    [[("Component", Value.str "System")], [("Component", Value.str "Quiz")]]
    (ingestEntry 2 "t0") 2 (by decide) (by decide) (by decide) (by decide) (by decide)

/-- C7 counterexample: starting from `exStateFilter` (2 records, one of
them `System`), the first filtering run leaves `filtered_rows = 1`; after
the second run the code reports `removed_rows = 1`, not the claim's
`previous filtered_rows - new filtered_rows = 1 - 1 = 0`: the second run is
not re-based off the already-filtered count. -/
theorem remove_excluded_second_run_counterexample :
    removeExcludedComponents exStateFilter "t1" =
      Except.ok (exStateFilterB, saveState exStateFilterB "t1") ∧
    removeExcludedComponents exStateFilterB "t2" =
      Except.ok (exStateFilterC, saveState exStateFilterC "t2") ∧
    alookup "D" exStateFilterB.stats = some exStatB ∧
    alookup "D" exStateFilterC.stats = some exStatC ∧
    exStatB.filtered_rows = some 1 ∧
    exStatC.filtered_rows = some 1 ∧
    exStatC.removed_rows = some 1 ∧
    ¬ ((1 : Int) = 1 - 1) := by
  decide

/-- C7 (amended): a second `remove_excluded_components` run still bases
`removed_rows` on the ingestion-time `original_rows` (never re-based):
after the second run `removed_rows = original_rows - new filtered_rows`. -/
theorem remove_excluded_second_run_uses_original
    (s : State) (t1 t2 : String) (s1 s2 : State) (sn1 sn2 : Snapshot)
    (name : String) (recs : List Record) (e : StatEntry) (o : Int)
    (h1 : removeExcludedComponents s t1 = Except.ok (s1, sn1))
    (h2 : removeExcludedComponents s1 t2 = Except.ok (s2, sn2))
    (hnd : (s.data.map Prod.fst).Nodup)
    (hdata : alookup name s.data = some recs)
    (hstat : alookup name s.stats = some e)
    (horig : e.original_rows = some o) :
    ∃ e2 recs2, alookup name s2.stats = some e2 ∧
      alookup name s2.data = some recs2 ∧
      e2.filtered_rows = some ((recs2.length : Nat) : Int) ∧
      e2.removed_rows = some (o - (recs2.length : Int)) ∧
      e2.original_rows = some o := by
  have hd1 : alookup name s1.data =
      some (recs.filter (keepRecord s.excluded_components)) :=
    removeExcluded_ok_lookup_data s t1 s1 sn1 name recs h1 hdata
  have hs1 : alookup name s1.stats = some
      { e with
        filtered_rows :=
          some (((recs.filter (keepRecord s.excluded_components)).length : Nat) : Int)
        removed_rows :=
          some (origRowsOf e -
            ((recs.filter (keepRecord s.excluded_components)).length : Int))
        filtered_at := some t1 } :=
    removeExcluded_ok_stats s t1 s1 sn1 name recs e h1 hnd hdata hstat
  have hnd1 : (s1.data.map Prod.fst).Nodup := by
    rw [removeExcluded_ok_data s t1 s1 sn1 h1, keys_map_value]
    exact hnd
  have hex1 : s1.excluded_components = s.excluded_components :=
    (removeExcluded_ok_parts s t1 s1 sn1 h1).2.2.1
  have hd2 : alookup name s2.data =
      some ((recs.filter (keepRecord s.excluded_components)).filter
        (keepRecord s1.excluded_components)) :=
    removeExcluded_ok_lookup_data s1 t2 s2 sn2 name _ h2 hd1
  have hs2 := removeExcluded_ok_stats s1 t2 s2 sn2 name _ _ h2 hnd1 hd1 hs1
  refine ⟨_, _, hs2, hd2, rfl, ?_, horig⟩
  have : origRowsOf
      { e with
        filtered_rows :=
          some (((recs.filter (keepRecord s.excluded_components)).length : Nat) : Int)
        removed_rows :=
          some (origRowsOf e -
            ((recs.filter (keepRecord s.excluded_components)).length : Int))
        filtered_at := some t1 } = o := by
    simp [origRowsOf, horig]
  rw [this]

/-- C7 witness for the amended claim: concretely, after the second run on
dataset `D`, `removed_rows = 2 - 1 = 1`, computed from the ingestion-time
`original_rows = 2`. -/
theorem remove_excluded_second_run_uses_original_witness :
    ∃ e2 recs2, alookup "D" exStateFilterC.stats = some e2 ∧
      alookup "D" exStateFilterC.data = some recs2 ∧
      e2.filtered_rows = some ((recs2.length : Nat) : Int) ∧
      e2.removed_rows = some (2 - (recs2.length : Int)) ∧
      e2.original_rows = some 2 :=
  remove_excluded_second_run_uses_original exStateFilter "t1" "t2"
    exStateFilterB exStateFilterC (saveState exStateFilterB "t1")
    (saveState exStateFilterC "t2") "D"
    [[("Component", Value.str "System")], [("Component", Value.str "Quiz")]]
    (ingestEntry 2 "t0") 2 (by decide) (by decide) (by decide) (by decide)
    (by decide) (by decide)

/-- C10: a record with no `Component` field at all always survives
`remove_excluded_components` (`record.get('Component')` is `None`, which is
never a member of a set of component-name strings). -/
theorem remove_excluded_retains_componentless
    (s : State) (t : String) (s' : State) (snap : Snapshot)
    (name : String) (recs : List Record) (r : Record)
    (hrun : removeExcludedComponents s t = Except.ok (s', snap))
    (hdata : alookup name s.data = some recs)
    (hr : r ∈ recs)
    (hc : alookup "Component" r = none) :
    ∃ recs', alookup name s'.data = some recs' ∧ r ∈ recs' := by
  refine ⟨_, removeExcluded_ok_lookup_data s t s' snap name recs hrun hdata, ?_⟩
  rw [List.mem_filter]
  refine ⟨hr, ?_⟩
  simp [keepRecord, hc, optValueMem]

/-- C10 witness: the componentless record `[("Action", "x")]` of dataset
`D` in `exStateNoComp` is retained by a filtering run. -/
theorem remove_excluded_retains_componentless_witness :
    ∃ recs', alookup "D" exStateNoCompB.data = some recs' ∧
      [("Action", Value.str "x")] ∈ recs' :=
  remove_excluded_retains_componentless exStateNoComp "t1" exStateNoCompB
    (saveState exStateNoCompB "t1") "D"
    [[("Action", Value.str "x")], [("Component", Value.str "System")]]
    [("Action", Value.str "x")] (by decide) (by decide) (by decide) (by decide)

/-- C3: `_save_state` followed by `_load_state` reproduces an equivalent
Application State: the dataset map and the statistics are reproduced
exactly, the processed-file registry and the exclusion set up to set
membership. -/
theorem save_load_roundtrip (s : State) (t : String) :
    (loadState (saveState s t)).data = s.data ∧
    (loadState (saveState s t)).stats = s.stats ∧
    (∀ p, p ∈ (loadState (saveState s t)).processed_files ↔
      p ∈ s.processed_files) ∧
    (∀ c, c ∈ (loadState (saveState s t)).excluded_components ↔
      c ∈ s.excluded_components) := by
  refine ⟨rfl, rfl, ?_, ?_⟩ <;> intro x <;>
    simp [loadState, saveState, List.mem_dedup]

/-- C8 (code bug): `get_state_summary` looks `'last_updated'` up in
`self.stats`, which maps dataset names to per-dataset entries and never
holds that key, so the summary reports the sentinel `'Never'` even for a
state that was just saved (here at `"2024-05-01T10:00:00"`) and reloaded. -/
theorem get_state_summary_last_updated_never :
    (getStateSummary exStateOneDataset).last_updated = Sum.inr "Never" ∧
    (getStateSummary
      (loadState (saveState exStateOneDataset "2024-05-01T10:00:00"))).last_updated
      = Sum.inr "Never" ∧
    (saveState exStateOneDataset "2024-05-01T10:00:00").last_updated =
      "2024-05-01T10:00:00" := by
  decide

/-- C9 counterexample: `clear_state` does not clear the exclusion set —
starting from a state whose exclusion set is `{"System", "Folder"}`, the
reset state still carries it. -/
theorem clear_state_counterexample :
    (clearState exStateOneDataset "t1").1.excluded_components =
      ["System", "Folder"] ∧
    ¬ (clearState exStateOneDataset "t1").1.excluded_components = [] := by
  decide

/-- C9 (amended): `clear_state` clears the dataset map, the statistics and
the processed-file registry and immediately persists the resulting state,
but leaves the exclusion set unchanged (and persists it as-is). -/
theorem clear_state_resets_and_persists (s : State) (t : String) :
    (clearState s t).1.data = [] ∧
    (clearState s t).1.stats = [] ∧
    (clearState s t).1.processed_files = [] ∧
    (clearState s t).1.excluded_components = s.excluded_components ∧
    (clearState s t).2 = saveState (clearState s t).1 t ∧
    (clearState s t).2.data = [] ∧
    (clearState s t).2.stats = [] ∧
    (clearState s t).2.processed_files = [] ∧
    (clearState s t).2.excluded_components = s.excluded_components :=
  ⟨rfl, rfl, rfl, rfl, rfl, rfl, rfl, rfl, rfl⟩

/-! Helper lemmas about the ingestion loop. -/

theorem processGo_all_skipped (fs : String → Option (List Record)) (now : String) :
    ∀ (paths : List String) (s : State) (newly : Bool),
    (∀ q ∈ paths, q ∈ s.processed_files) →
    processGo fs now s newly paths = (s, newly) := by
  intro paths
  induction paths with
  | nil => intro s newly _; rfl
  | cons p rest ih =>
    intro s newly h
    have hp : p ∈ s.processed_files := h p (List.mem_cons_self p rest)
    simp only [processGo, if_pos hp]
    exact ih s newly (fun q hq => h q (List.mem_cons_of_mem p hq))

theorem processGo_true_stays (fs : String → Option (List Record)) (now : String) :
    ∀ (paths : List String) (s : State),
    (processGo fs now s true paths).2 = true := by
  intro paths
  induction paths with
  | nil => intro s; rfl
  | cons p rest ih =>
    intro s
    by_cases hp : p ∈ s.processed_files
    · simp only [processGo, if_pos hp]
      exact ih s
    · simp only [processGo, if_neg hp]
      cases hf : fs p with
      | none => exact ih s
      | some recs => exact ih _

theorem processGo_sets_newly (fs : String → Option (List Record)) (now : String)
    (s0 : State) :
    ∀ (paths : List String) (s : State) (acc : Bool),
    (∀ x ∈ s.processed_files, x ∈ s0.processed_files ∨ acc = true) →
    (∃ q ∈ paths, q ∉ s0.processed_files ∧ (fs q).isSome) →
    (processGo fs now s acc paths).2 = true := by
  intro paths
  induction paths with
  | nil =>
    rintro s acc _ ⟨q, hq, _⟩
    exact absurd hq (List.not_mem_nil q)
  | cons p rest ih =>
    rintro s acc hinv ⟨q, hq, hq0, hqs⟩
    by_cases hp : p ∈ s.processed_files
    · simp only [processGo, if_pos hp]
      rcases List.mem_cons.mp hq with rfl | hqr
      · rcases hinv q hp with hmem | hacc
        · exact absurd hmem hq0
        · subst hacc
          exact processGo_true_stays fs now rest s
      · exact ih s acc hinv ⟨q, hqr, hq0, hqs⟩
    · cases hf : fs p with
      | none =>
        simp only [processGo, if_neg hp, hf]
        rcases List.mem_cons.mp hq with rfl | hqr
        · rw [hf] at hqs
          simp [Option.isSome] at hqs
        · exact ih s acc hinv ⟨q, hqr, hq0, hqs⟩
      | some recs =>
        simp only [processGo, if_neg hp, hf]
        exact processGo_true_stays fs now rest _

theorem processGo_data_ne (fs : String → Option (List Record)) (now : String) :
    ∀ (paths : List String) (s : State) (acc : Bool),
    (acc = true → s.data ≠ []) →
    (processGo fs now s acc paths).2 = true →
    (processGo fs now s acc paths).1.data ≠ [] := by
  intro paths
  induction paths with
  | nil =>
    intro s acc hd hnew
    exact hd hnew
  | cons p rest ih =>
    intro s acc hd hnew
    by_cases hp : p ∈ s.processed_files
    · simp only [processGo, if_pos hp] at hnew ⊢
      exact ih s acc hd hnew
    · cases hf : fs p with
      | none =>
        simp only [processGo, if_neg hp, hf] at hnew ⊢
        exact ih s acc hd hnew
      | some recs =>
        simp only [processGo, if_neg hp, hf] at hnew ⊢
        refine ih _ true (fun _ => ?_) hnew
        exact updateAssoc_ne_nil _ _ _

theorem processGo_single (fs : String → Option (List Record)) (now : String)
    (s : State) (p : String) (recs : List Record)
    (hp : p ∉ s.processed_files) (hf : fs p = some recs) :
    processGo fs now s false [p] =
      ({ s with
          stats := updateAssoc s.stats (datasetNameOf p) (ingestEntry recs.length now)
          data := updateAssoc s.data (datasetNameOf p) recs
          processed_files := s.processed_files ++ [p] }, true) := by
  simp only [processGo, if_neg hp, hf]

theorem processCsvFiles_all_skipped (fs : String → Option (List Record))
    (now : String) (s : State) (paths : List String)
    (h : ∀ q ∈ paths, q ∈ s.processed_files) :
    processCsvFiles fs now s paths =
      { state := s, newlyProcessed := false, snapshot := none,
        exportArtifact := none } := by
  have hgo := processGo_all_skipped fs now paths s false h
  simp [processCsvFiles, hgo]

theorem processCsvFiles_writes_both (fs : String → Option (List Record))
    (now : String) (s : State) (paths : List String)
    (hnew : (processGo fs now s false paths).2 = true)
    (hdata : (processGo fs now s false paths).1.data ≠ []) :
    (processCsvFiles fs now s paths).snapshot.isSome = true ∧
    (processCsvFiles fs now s paths).exportArtifact.isSome = true := by
  constructor
  · simp [processCsvFiles, hnew]
  · simp [processCsvFiles, hnew, saveJsonRecords, List.isEmpty_iff, hdata]

/-- C1: per-path idempotence of ingestion.  With `p` unregistered and
cleanable, after a first successful `process_csv_files` call on `[p]`, a
second call on `[p]` skips it, leaving the whole state (hence that
dataset's content and statistics) unchanged and writing neither a snapshot
nor an export artifact; more generally a call whose every path is already
registered changes nothing and writes nothing, while a call containing at
least one unregistered, cleanable path writes both a snapshot and an
export artifact. -/
theorem process_csv_files_idempotent
    (fs : String → Option (List Record)) (t1 t2 : String)
    (s : State) (p : String) (recs : List Record)
    (hp : p ∉ s.processed_files) (hf : fs p = some recs) :
    ((processCsvFiles fs t2 (processCsvFiles fs t1 s [p]).state [p]).state
        = (processCsvFiles fs t1 s [p]).state ∧
      (processCsvFiles fs t2 (processCsvFiles fs t1 s [p]).state [p]).snapshot
        = none ∧
      (processCsvFiles fs t2 (processCsvFiles fs t1 s [p]).state [p]).exportArtifact
        = none) ∧
    ((processCsvFiles fs t1 s [p]).snapshot.isSome ∧
      (processCsvFiles fs t1 s [p]).exportArtifact.isSome) ∧
    (∀ (paths : List String) (t : String),
      (∀ q ∈ paths, q ∈ s.processed_files) →
      processCsvFiles fs t s paths =
        { state := s, newlyProcessed := false, snapshot := none,
          exportArtifact := none }) ∧
    (∀ (paths : List String) (t : String),
      (∃ q ∈ paths, q ∉ s.processed_files ∧ (fs q).isSome) →
      (processCsvFiles fs t s paths).snapshot.isSome ∧
      (processCsvFiles fs t s paths).exportArtifact.isSome) := by
  have h1 := processGo_single fs t1 s p recs hp hf
  have hstate1 : (processCsvFiles fs t1 s [p]).state =
      { s with
        stats := updateAssoc s.stats (datasetNameOf p) (ingestEntry recs.length t1)
        data := updateAssoc s.data (datasetNameOf p) recs
        processed_files := s.processed_files ++ [p] } := by
    simp only [processCsvFiles, h1]
  have hmem : p ∈ (processCsvFiles fs t1 s [p]).state.processed_files := by
    rw [hstate1]
    exact List.mem_append_right _ (List.mem_singleton_self p)
  have hskip2 := processCsvFiles_all_skipped fs t2 (processCsvFiles fs t1 s [p]).state
    [p] (by intro q hq; rw [List.mem_singleton.mp hq]; exact hmem)
  refine ⟨?_, ?_, ?_, ?_⟩
  · rw [hskip2]
    exact ⟨rfl, rfl, rfl⟩
  · exact processCsvFiles_writes_both fs t1 s [p]
      (by rw [h1]) (by rw [h1]; exact updateAssoc_ne_nil _ _ _)
  · intro paths t hall
    exact processCsvFiles_all_skipped fs t s paths hall
  · intro paths t hex
    have hnew := processGo_sets_newly fs t s paths s false
      (fun x hx => Or.inl hx) hex
    have hdata := processGo_data_ne fs t paths s false
      (fun hcontr => absurd hcontr (by simp)) hnew
    exact processCsvFiles_writes_both fs t s paths hnew hdata

/-- C1 witness: concrete two-call run on `"activity.csv"` from the empty
state, with the general all-skipped and at-least-one-processed parts
instantiated there too. -/
theorem process_csv_files_idempotent_witness :
    ((processCsvFiles exFs "t2"
        (processCsvFiles exFs "t1" exStateEmpty ["activity.csv"]).state
        ["activity.csv"]).state
      = (processCsvFiles exFs "t1" exStateEmpty ["activity.csv"]).state ∧
      (processCsvFiles exFs "t2"
        (processCsvFiles exFs "t1" exStateEmpty ["activity.csv"]).state
        ["activity.csv"]).snapshot = none ∧
      (processCsvFiles exFs "t2"
        (processCsvFiles exFs "t1" exStateEmpty ["activity.csv"]).state
        ["activity.csv"]).exportArtifact = none) ∧
    ((processCsvFiles exFs "t1" exStateEmpty ["activity.csv"]).snapshot.isSome ∧
      (processCsvFiles exFs "t1" exStateEmpty ["activity.csv"]).exportArtifact.isSome) ∧
    (∀ (paths : List String) (t : String),
      (∀ q ∈ paths, q ∈ exStateEmpty.processed_files) →
      processCsvFiles exFs t exStateEmpty paths =
        { state := exStateEmpty, newlyProcessed := false, snapshot := none,
          exportArtifact := none }) ∧
    (∀ (paths : List String) (t : String),
      (∃ q ∈ paths, q ∉ exStateEmpty.processed_files ∧ (exFs q).isSome) →
      (processCsvFiles exFs t exStateEmpty paths).snapshot.isSome ∧
      (processCsvFiles exFs t exStateEmpty paths).exportArtifact.isSome) :=
  process_csv_files_idempotent exFs "t1" "t2" exStateEmpty "activity.csv"
    exRecordsA (by decide) (by decide)

/-- C5: when `ACTIVITY_LOG` or `USER_LOG` (or both) is absent from the
dataset map, `merge_datasets` fails with the missing-required-datasets
error carrying exactly the absent required names, and the Application
State is left unchanged (the method assigns no attribute). -/
theorem merge_datasets_missing_required (s : State)
    (h : ¬ ("ACTIVITY_LOG" ∈ s.data.map Prod.fst ∧
        "USER_LOG" ∈ s.data.map Prod.fst)) :
    (runMergeDatasets s).2 = s ∧
    (runMergeDatasets s).1 = Except.error (MergeError.missingDatasets
      (["ACTIVITY_LOG", "USER_LOG"].filter
        (fun n => ! (s.data.map Prod.fst).contains n))) ∧
    (∀ n, n ∈ ["ACTIVITY_LOG", "USER_LOG"].filter
        (fun n => ! (s.data.map Prod.fst).contains n) ↔
      ((n = "ACTIVITY_LOG" ∨ n = "USER_LOG") ∧ n ∉ s.data.map Prod.fst)) := by
  refine ⟨rfl, ?_, ?_⟩
  · have hne : ¬ ((["ACTIVITY_LOG", "USER_LOG"].filter
        (fun n => ! (s.data.map Prod.fst).contains n)).isEmpty = true) := by
      intro hc
      rw [List.isEmpty_iff, List.filter_eq_nil_iff] at hc
      have hA := hc "ACTIVITY_LOG" (by simp)
      have hU := hc "USER_LOG" (by simp)
      apply h
      constructor
      · simpa using hA
      · simpa using hU
    simp only [runMergeDatasets, mergeDatasets]
    rw [if_neg hne]
  · intro n
    simp [List.mem_filter]

/-- C5 witness: a state holding only `ACTIVITY_LOG` fails with the error
naming exactly `USER_LOG`, and the state is untouched. -/
theorem merge_datasets_missing_required_witness :
    (runMergeDatasets exStateOneDataset).2 = exStateOneDataset ∧
    (runMergeDatasets exStateOneDataset).1 =
      Except.error (MergeError.missingDatasets ["USER_LOG"]) := by
  have h := merge_datasets_missing_required exStateOneDataset (by decide)
  refine ⟨h.1, ?_⟩
  rw [h.2.1]
  decide

/-- C4 (code bug): on a 3-row `ACTIVITY_LOG` (columns `Component`,
`Action`), a 3-row `USER_LOG` (columns `Date`, `User_ID`) and a
`COMPONENT_CODES` table mapping `Quiz ↦ 101`, the merged output has 3 rows
and a `YYYY-MM` `Month` column, but `iloc[:, 2:]` has dropped
`ACTIVITY_LOG`'s first data column (`Component`) together with the
activity-side `index` column, while the user-side `index` column survives:
row `i` does not carry all columns of row `i` of `ACTIVITY_LOG`. -/
theorem merge_datasets_drops_first_activity_column :
    (dfFromRecords exRecordsA).cols = ["Component", "Action"] ∧
    (mergeDatasets exStateMerge).map DataFrame.cols =
      Except.ok ["Action", "index", "Date", "User_ID", "Code", "Month"] ∧
    (mergeDatasets exStateMerge).map (fun df => df.rows.length) = Except.ok 3 ∧
    (mergeDatasets exStateMerge).map (fun df => df.rows.getD 0 []) =
      Except.ok [Value.str "View", Value.num 0, Value.str "2024-01-15",
        Value.num 7, Value.num 101, Value.str "2024-01"] := by
  decide

/-- C6: on a merged table whose `User_ID` cells are all coercible to
integer, `reshape_data` succeeds and produces exactly one row per distinct
`(User_ID, Month)` pair, one column per distinct `Component` value, each
cell counting that combination's `Action` occurrences (0 where absent),
a `Total_Interactions` value equal to the sum of the row's component
cells, and rows sorted by `User_ID` ascending then `Month` ascending. -/
theorem reshape_data_pivot_spec (rows : List MergedRow)
    (h : (rows.all fun r => (toIntValue r.user_id).isSome) = true) :
    ∃ pt, reshape_data rows = Except.ok pt ∧
      (pt.rows.map fun pr => (pr.user_id, pr.month)).Nodup ∧
      (∀ u m, (u, m) ∈ pt.rows.map (fun pr => (pr.user_id, pr.month)) ↔
        ∃ r ∈ rows, toIntValue r.user_id = some u ∧ r.month = m) ∧
      pt.comps.Nodup ∧
      (∀ c, c ∈ pt.comps ↔ ∃ r ∈ rows, r.component = c) ∧
      (∀ pr ∈ pt.rows,
        pr.counts = pt.comps.map (cellCount rows pr.user_id pr.month) ∧
        pr.total = pr.counts.sum) ∧
      List.Sorted rowLe pt.rows := by
  have hall : ∀ r ∈ rows, (toIntValue r.user_id).isSome := by
    intro r hr
    exact List.all_eq_true.mp h r hr
  have hperm : List.Perm
      (List.insertionSort rowLe ((pivotPairs rows).map (pivotRowOf rows)))
      ((pivotPairs rows).map (pivotRowOf rows)) :=
    List.perm_insertionSort _ _
  have hmapeq : ((pivotPairs rows).map (pivotRowOf rows)).map
      (fun pr => (pr.user_id, pr.month)) = pivotPairs rows := by
    rw [List.map_map]
    exact List.map_id _
  have hpairs_map : List.Perm
      ((List.insertionSort rowLe
        ((pivotPairs rows).map (pivotRowOf rows))).map
        (fun pr => (pr.user_id, pr.month)))
      (pivotPairs rows) := by
    have hm := hperm.map (fun pr => (pr.user_id, pr.month))
    rwa [hmapeq] at hm
  refine ⟨{ comps := pivotComps rows,
            rows := List.insertionSort rowLe
              ((pivotPairs rows).map (pivotRowOf rows)) },
    by simp only [reshape_data]; rw [if_pos h], ?_, ?_, ?_, ?_, ?_, ?_⟩
  · exact hpairs_map.nodup_iff.mpr (List.nodup_dedup _)
  · intro u m
    rw [hpairs_map.mem_iff]
    show (u, m) ∈ (rows.map (fun r => (uidOf r, r.month))).dedup ↔ _
    rw [List.mem_dedup, List.mem_map]
    constructor
    · rintro ⟨r, hr, heq⟩
      have h1 : uidOf r = u := congrArg Prod.fst heq
      have h2 : r.month = m := congrArg Prod.snd heq
      refine ⟨r, hr, ?_, h2⟩
      obtain ⟨v, hv⟩ := Option.isSome_iff_exists.mp (hall r hr)
      simp only [uidOf, hv, Option.getD_some] at h1
      rw [hv, h1]
    · rintro ⟨r, hr, hsome, hm⟩
      refine ⟨r, hr, ?_⟩
      have h1 : uidOf r = u := by simp [uidOf, hsome]
      rw [h1, hm]
  · exact ((List.perm_insertionSort strLe _).nodup_iff).mpr (List.nodup_dedup _)
  · intro c
    show c ∈ pivotComps rows ↔ _
    simp [pivotComps]
  · intro pr hpr
    have hpr' : pr ∈ (pivotPairs rows).map (pivotRowOf rows) :=
      (List.mem_insertionSort rowLe).mp hpr
    obtain ⟨p, hp, hpe⟩ := List.mem_map.mp hpr'
    subst hpe
    exact ⟨rfl, rfl⟩
  · exact List.sorted_insertionSort rowLe _

/-- C6 witness: the spec's reshape example — user 7 with two `Quiz` actions
and one `Forum` action in `2024-01` — instantiating the pivot theorem. -/
theorem reshape_data_pivot_spec_witness :
    ∃ pt, reshape_data exMergedRows = Except.ok pt ∧
      (pt.rows.map fun pr => (pr.user_id, pr.month)).Nodup ∧
      (∀ u m, (u, m) ∈ pt.rows.map (fun pr => (pr.user_id, pr.month)) ↔
        ∃ r ∈ exMergedRows, toIntValue r.user_id = some u ∧ r.month = m) ∧
      pt.comps.Nodup ∧
      (∀ c, c ∈ pt.comps ↔ ∃ r ∈ exMergedRows, r.component = c) ∧
      (∀ pr ∈ pt.rows,
        pr.counts = pt.comps.map (cellCount exMergedRows pr.user_id pr.month) ∧
        pr.total = pr.counts.sum) ∧
      List.Sorted rowLe pt.rows :=
  reshape_data_pivot_spec exMergedRows (by decide)
